import Mathlib

/-!
Shallow embedding of the frame quality and composition scoring engine of the
tiktok-shop-link-kit repository.

Service/batch path: `apps/ai-workers/thumbnail-generator/python/yolo_service.py`
Thumbnail-selection path: `apps/ai-workers/thumbnail-generator/python/yolo_analyzer.py`

Floats become rationals (the composition scorer, which takes a Euclidean
square root, lives over the reals).  The external world of a frame path
(whether the file exists, whether `cv2.imread` decodes it, what the YOLO
detector returns) is modelled by `FrameSource`; exceptions that the Python
code raises and catches become constructor cases.
-/

namespace YoloService

/-- One detection of `yolo_service.py` (`DetectedObject` pydantic model,
lines 31-34): class name, confidence, pixel bbox `[x1, y1, x2, y2]`. -/
structure DetectedObject where
  class_name : String
  confidence : ℚ
  bbox : List ℚ
deriving Repr, DecidableEq

/-- Result of one frame analysis on the service path
(`FrameAnalysisResponse`, yolo_service.py lines 36-43). -/
structure FrameAnalysisResponse where
  frame_index : ℤ
  timestamp : ℚ
  has_product : Bool
  quality_score : ℚ
  brightness_score : ℚ
  blur_score : ℚ
  detected_objects : List DetectedObject
deriving Repr, DecidableEq

/-- One request of the batch surface (`FrameAnalysisRequest`,
yolo_service.py lines 26-29). -/
structure FrameAnalysisRequest where
  frame_path : String
  frame_index : ℤ
  timestamp : ℚ
deriving Repr, DecidableEq

/-- The product-class vocabulary of `YOLOService.__init__`
(yolo_service.py lines 54-64), transcribed in source order.  The Python
set is modelled as a list; membership is all the code uses. -/
def product_classes : List String :=
  ["person", "bicycle", "car", "motorcycle", "airplane", "bus", "train", "truck", "boat",
   "bottle", "wine glass", "cup", "fork", "knife", "spoon", "bowl", "banana", "apple",
   "sandwich", "orange", "broccoli", "carrot", "hot dog", "pizza", "donut", "cake",
   "chair", "couch", "potted plant", "bed", "dining table", "toilet", "tv", "laptop",
   "mouse", "remote", "keyboard", "cell phone", "microwave", "oven", "toaster", "sink",
   "refrigerator", "book", "clock", "vase", "scissors", "teddy bear", "hair drier",
   "toothbrush", "handbag", "tie", "suitcase", "frisbee", "skis", "snowboard",
   "sports ball", "kite", "baseball bat", "baseball glove", "skateboard", "surfboard",
   "tennis racket", "backpack", "umbrella", "shoe"]

/-- Abstraction of a decoded image: the grayscale statistics the score
helpers read, plus a flag recording whether those in-helper pixel
computations (`cv2.cvtColor`, `cv2.Laplacian`, `np.mean`) succeed — the
helpers catch their own exceptions (yolo_service.py lines 87-89, 104-106). -/
structure Image where
  metricsOk : Bool
  laplacianVar : ℚ
  meanGray : ℚ
deriving Repr, DecidableEq

/-- What the outside world yields for a frame path in
`YOLOService.analyze_frame` (yolo_service.py lines 110-120):
the file may be missing (`os.path.exists` false, raising
`FileNotFoundError`), `cv2.imread` may fail to decode it (returning
`None`, raising `ValueError`), or it decodes to an image and the YOLO
detector call either raises (`Except.error`) or yields detections. -/
inductive FrameSource where
  | missing : FrameSource
  | unreadable : FrameSource
  | loaded : Image → Except Unit (List DetectedObject) → FrameSource

/-- `YOLOService.calculate_blur_score` (yolo_service.py lines 79-89):
Laplacian variance normalized by 1000 and capped at 1; on an internal
failure the helper returns the neutral 0.5. -/
def calculate_blur_score (image : Image) : ℚ :=
  if image.metricsOk then min (image.laplacianVar / 1000) 1 else 1/2

/-- `YOLOService.calculate_brightness_score` (yolo_service.py lines
91-106): mean gray over 255, piecewise mapped (mid-band 0.3-0.8 is
optimal), clamped to [0,1]; neutral 0.5 on internal failure. -/
def calculate_brightness_score (image : Image) : ℚ :=
  if image.metricsOk then
    let mean_brightness := image.meanGray / 255
    let brightness_score :=
      if 3/10 ≤ mean_brightness ∧ mean_brightness ≤ 8/10 then 1
      else if mean_brightness < 3/10 then mean_brightness / (3/10)
      else (1 - mean_brightness) / (2/10)
    max 0 (min 1 brightness_score)
  else 1/2

/-- The degraded response built by the `except` branch of
`YOLOService.analyze_frame` (yolo_service.py lines 165-176). -/
def degradedResponse (frame_index : ℤ) (timestamp : ℚ) : FrameAnalysisResponse :=
  { frame_index := frame_index
    timestamp := timestamp
    has_product := false
    quality_score := 0
    brightness_score := 0
    blur_score := 0
    detected_objects := [] }

/-- `YOLOService.analyze_frame` (yolo_service.py lines 108-176).  A
missing file, an undecodable file, and a detector failure all land in
the `except` branch and yield the degraded response; otherwise the
detection loop sets `has_product` when any class name is in the
vocabulary, and the quality score blends the detection term with the
blur and brightness scores. -/
def analyze_frame : FrameSource → ℤ → ℚ → FrameAnalysisResponse
  | FrameSource.missing, frame_index, timestamp => degradedResponse frame_index timestamp
  | FrameSource.unreadable, frame_index, timestamp => degradedResponse frame_index timestamp
  | FrameSource.loaded _ (Except.error _), frame_index, timestamp =>
      degradedResponse frame_index timestamp
  | FrameSource.loaded image (Except.ok detected_objects), frame_index, timestamp =>
      let has_product := detected_objects.any (fun d => product_classes.contains d.class_name)
      let blur_score := calculate_blur_score image
      let brightness_score := calculate_brightness_score image
      let detection_score : ℚ := if has_product then 1 else 3/10
      { frame_index := frame_index
        timestamp := timestamp
        has_product := has_product
        quality_score := detection_score * (4/10) + blur_score * (3/10) + brightness_score * (3/10)
        brightness_score := brightness_score
        blur_score := blur_score
        detected_objects := detected_objects }

/-- The `POST /analyze_batch` handler (yolo_service.py lines 212-240): a
sequential loop calling `analyze_frame` per request.  Since
`analyze_frame` catches every exception internally, the per-item
`except` in the loop is unreachable and the loop is a map.  `env` gives
the state of the world at each frame path. -/
def analyze_batch (env : String → FrameSource) (requests : List FrameAnalysisRequest) :
    List FrameAnalysisResponse :=
  requests.map (fun r => analyze_frame (env r.frame_path) r.frame_index r.timestamp)

end YoloService

namespace YoloAnalyzer

/-- The product-class vocabulary of `FrameAnalyzer.__init__`
(yolo_analyzer.py lines 33-43), transcribed in source order.  Unlike the
service vocabulary it does not contain "shoe". -/
def product_classes : List String :=
  ["person", "bicycle", "car", "motorcycle", "airplane", "bus", "train", "truck", "boat",
   "bottle", "wine glass", "cup", "fork", "knife", "spoon", "bowl", "banana", "apple",
   "sandwich", "orange", "broccoli", "carrot", "hot dog", "pizza", "donut", "cake",
   "chair", "couch", "potted plant", "bed", "dining table", "toilet", "tv", "laptop",
   "mouse", "remote", "keyboard", "cell phone", "microwave", "oven", "toaster", "sink",
   "refrigerator", "book", "clock", "vase", "scissors", "teddy bear", "hair drier",
   "toothbrush", "handbag", "tie", "suitcase", "frisbee", "skis", "snowboard",
   "sports ball", "kite", "baseball bat", "baseball glove", "skateboard", "surfboard",
   "tennis racket", "backpack", "umbrella"]

/-- Normalized bounding box of one analyzer detection
(yolo_analyzer.py lines 74-83): x, y, width, height as fractions of the
frame.  Real-valued because the composition scorer takes a Euclidean
square root. -/
structure BBox where
  x : ℝ
  y : ℝ
  width : ℝ
  height : ℝ

/-- One detection dict produced by the loop of
`FrameAnalyzer.analyze_frame` (yolo_analyzer.py lines 63-87). -/
structure Detection where
  class_name : String
  confidence : ℝ
  bbox : BBox

/-- The `has_product` flag computed by the detection loop of
`FrameAnalyzer.analyze_frame` (yolo_analyzer.py lines 61-87): set when
any detection class name is in the vocabulary. -/
def hasProduct (detected_objects : List Detection) : Bool :=
  detected_objects.any (fun d => product_classes.contains d.class_name)

/-- Output record of `FrameAnalyzer._calculate_quality_metrics`
(yolo_analyzer.py lines 141-146). -/
structure QualityMetrics where
  blur_score : ℚ
  brightness_score : ℚ
  contrast_score : ℚ
  overall_quality : ℚ
deriving Repr, DecidableEq

/-- `FrameAnalyzer._calculate_quality_metrics` (yolo_analyzer.py lines
107-146), as a function of the grayscale statistics it reads: Laplacian
variance, mean intensity and intensity standard deviation (0..255). -/
def calculate_quality_metrics (laplacianVar meanGray stdGray : ℚ) : QualityMetrics :=
  let normalized_blur := min (laplacianVar / 1000) 1
  let blur_score_final := 1 - normalized_blur
  let brightness := meanGray / 255
  let brightness_score :=
    if brightness < 2/10 then brightness * (5/2)
    else if brightness > 8/10 then (1 - brightness) * 5
    else 1
  let brightness_clamped := max 0 (min 1 brightness_score)
  let contrast := stdGray / 255
  let contrast_score := min (contrast * 2) 1
  { blur_score := blur_score_final
    brightness_score := brightness_clamped
    contrast_score := contrast_score
    overall_quality :=
      (1 - blur_score_final) * (4/10) + brightness_clamped * (3/10) + contrast_score * (3/10) }

/-- Per-object body of the loop of
`FrameAnalyzer._calculate_composition_score` (yolo_analyzer.py lines
159-185): center score from the Euclidean distance of the object center
to the frame center, piecewise size score from the normalized area,
blended 0.4/0.6 and weighted by confidence. -/
noncomputable def objectScore (obj : Detection) : ℝ :=
  let obj_center_x := obj.bbox.x + obj.bbox.width / 2
  let obj_center_y := obj.bbox.y + obj.bbox.height / 2
  let distance_from_center :=
    Real.sqrt ((obj_center_x - 1/2) ^ 2 + (obj_center_y - 1/2) ^ 2)
  let center_score := 1 - min (distance_from_center * 2) 1
  let obj_area := obj.bbox.width * obj.bbox.height
  let size_score :=
    if 1/10 ≤ obj_area ∧ obj_area ≤ 6/10 then 1
    else if obj_area < 1/10 then obj_area * 10
    else max (2/10) (1 - (obj_area - 6/10) * 2)
  (center_score * (4/10) + size_score * (6/10)) * obj.confidence

/-- `FrameAnalyzer._calculate_composition_score` (yolo_analyzer.py lines
148-193): 0.3 for no detections; otherwise one loop tracking the maximum
per-object score and maximum confidence (both from 0.0), a 1.2 boost
when the maximum confidence exceeds 0.8, capped at 1. -/
noncomputable def calculate_composition_score (detected_objects : List Detection) : ℝ :=
  if detected_objects.isEmpty then 3/10
  else
    let acc := detected_objects.foldl
      (fun (p : ℝ × ℝ) obj => (max p.1 (objectScore obj), max p.2 obj.confidence))
      (0, 0)
    let boosted := if acc.2 > 8/10 then acc.1 * (12/10) else acc.1
    min boosted 1

/-- Modelled from the spec (section 4.2 CompositionScorer), for the
refinement claim: steps 1-5 give each detection a per-object score —
the same formula as the code's loop body. -/
noncomputable def specPerObjectScore (obj : Detection) : ℝ :=
  let cx := obj.bbox.x + obj.bbox.width / 2
  let cy := obj.bbox.y + obj.bbox.height / 2
  let d := Real.sqrt ((cx - 1/2) ^ 2 + (cy - 1/2) ^ 2)
  let center_score := 1 - min (d * 2) 1
  let a := obj.bbox.width * obj.bbox.height
  let size_score :=
    if 1/10 ≤ a ∧ a ≤ 6/10 then 1
    else if a < 1/10 then a * 10
    else max (2/10) (1 - (a - 6/10) * 2)
  (center_score * (4/10) + size_score * (6/10)) * obj.confidence

/-- Maximum of `f` over a nonempty detection list `d :: rest` — the
"maximum ... seen across all detections" of spec section 4.2 step 6. -/
noncomputable def specMaxOver (f : Detection → ℝ) (d : Detection) (rest : List Detection) : ℝ :=
  rest.foldl (fun m o => max m (f o)) (f d)

/-- Modelled from the spec (section 4.2): final score is the maximum
per-object score; if the maximum confidence exceeds 0.8 multiply by 1.2,
then clamp to [0,1]; an empty detection list yields the fixed default
0.3. -/
noncomputable def specCompositionScore : List Detection → ℝ
  | [] => 3/10
  | d :: rest =>
      let m := specMaxOver specPerObjectScore d rest
      let mc := specMaxOver (fun o => o.confidence) d rest
      let boosted := if mc > 8/10 then m * (12/10) else m
      max 0 (min boosted 1)

end YoloAnalyzer

/-! ## Helper lemmas -/

/-- `analyze_frame` always echoes the caller-supplied frame index, on the
success path and on every degraded path. -/
theorem analyze_frame_frame_index (src : YoloService.FrameSource) (frame_index : ℤ)
    (timestamp : ℚ) :
    (YoloService.analyze_frame src frame_index timestamp).frame_index = frame_index := by
  cases src with
  | missing => rfl
  | unreadable => rfl
  | loaded image det => cases det <;> rfl

/-- The service blur score lies in [0,1] when the Laplacian variance is
nonnegative (a variance always is). -/
theorem calculate_blur_score_bounds (image : YoloService.Image)
    (h : 0 ≤ image.laplacianVar) :
    0 ≤ YoloService.calculate_blur_score image ∧ YoloService.calculate_blur_score image ≤ 1 := by
  unfold YoloService.calculate_blur_score
  split
  · exact ⟨le_min (by positivity) zero_le_one, min_le_right _ _⟩
  · norm_num

/-- The service brightness score always lies in [0,1]. -/
theorem calculate_brightness_score_bounds (image : YoloService.Image) :
    0 ≤ YoloService.calculate_brightness_score image ∧
      YoloService.calculate_brightness_score image ≤ 1 := by
  unfold YoloService.calculate_brightness_score
  split
  · exact ⟨le_max_left _ _, max_le zero_le_one (min_le_left _ _)⟩
  · norm_num

/-! ## Claims -/

/-- C2: whenever the Detector call fails or the frame cannot be located
or decoded, `analyze_frame` returns a FrameAnalysis with quality, blur
and brightness scores all 0.0, `has_product = false` and an empty
detection list; no exception escapes this boundary (the embedded
function is total). -/
theorem C2_failure_returns_degraded (src : YoloService.FrameSource)
    (frame_index : ℤ) (timestamp : ℚ)
    (h : src = YoloService.FrameSource.missing ∨ src = YoloService.FrameSource.unreadable ∨
      ∃ image, src = YoloService.FrameSource.loaded image (Except.error ())) :
    YoloService.analyze_frame src frame_index timestamp =
      { frame_index := frame_index, timestamp := timestamp, has_product := false,
        quality_score := 0, brightness_score := 0, blur_score := 0, detected_objects := [] } := by
  rcases h with h | h | ⟨image, h⟩ <;> subst h <;> rfl

/-- Witness for C2 at a concrete missing frame. -/
theorem C2_failure_returns_degraded_witness :
    YoloService.analyze_frame YoloService.FrameSource.missing 3 (1/2) =
      { frame_index := 3, timestamp := 1/2, has_product := false,
        quality_score := 0, brightness_score := 0, blur_score := 0, detected_objects := [] } :=
  C2_failure_returns_degraded YoloService.FrameSource.missing 3 (1/2) (Or.inl rfl)

/-- C3: on a successful service analysis (frame loads, detector
answers, metric helpers succeed), the quality score is
`detection_term*0.4 + blur*0.3 + brightness*0.3` with detection term 1.0
when a product is present and 0.3 otherwise, and the blur score is
`min(laplacian_variance/1000, 1)`. -/
theorem C3_service_quality_formula (image : YoloService.Image)
    (dets : List YoloService.DetectedObject) (frame_index : ℤ) (timestamp : ℚ)
    (h : image.metricsOk = true) :
    (YoloService.analyze_frame (YoloService.FrameSource.loaded image (Except.ok dets))
        frame_index timestamp).quality_score =
      (if (YoloService.analyze_frame (YoloService.FrameSource.loaded image (Except.ok dets))
          frame_index timestamp).has_product then (1 : ℚ) else 3/10) * (4/10)
        + (YoloService.analyze_frame (YoloService.FrameSource.loaded image (Except.ok dets))
            frame_index timestamp).blur_score * (3/10)
        + (YoloService.analyze_frame (YoloService.FrameSource.loaded image (Except.ok dets))
            frame_index timestamp).brightness_score * (3/10) ∧
    (YoloService.analyze_frame (YoloService.FrameSource.loaded image (Except.ok dets))
        frame_index timestamp).blur_score = min (image.laplacianVar / 1000) 1 := by
  constructor
  · simp [YoloService.analyze_frame]
  · simp [YoloService.analyze_frame, YoloService.calculate_blur_score, h]

/-- Witness for C3 at a concrete image and empty detection list. -/
theorem C3_service_quality_formula_witness :
    (YoloService.Image.mk true 500 100).metricsOk = true ∧
    (YoloService.analyze_frame
        (YoloService.FrameSource.loaded (YoloService.Image.mk true 500 100) (Except.ok []))
        0 0).blur_score = min ((500 : ℚ) / 1000) 1 :=
  ⟨rfl, (C3_service_quality_formula (YoloService.Image.mk true 500 100) [] 0 0 rfl).2⟩

/-- C5: on the thumbnail-selection path the stored blur score is
`1 − min(laplacian_variance/1000, 1)` (higher means more blurry) and the
aggregate quality is `0.4*(1 − blur) + 0.3*brightness + 0.3*contrast`;
the composition score is computed elsewhere and does not appear in this
aggregate. -/
theorem C5_thumbnail_quality_formula (laplacianVar meanGray stdGray : ℚ) :
    (YoloAnalyzer.calculate_quality_metrics laplacianVar meanGray stdGray).blur_score =
      1 - min (laplacianVar / 1000) 1 ∧
    (YoloAnalyzer.calculate_quality_metrics laplacianVar meanGray stdGray).overall_quality =
      (4/10) * (1 - (YoloAnalyzer.calculate_quality_metrics laplacianVar meanGray stdGray).blur_score)
        + (3/10) * (YoloAnalyzer.calculate_quality_metrics laplacianVar meanGray stdGray).brightness_score
        + (3/10) * (YoloAnalyzer.calculate_quality_metrics laplacianVar meanGray stdGray).contrast_score := by
  refine ⟨rfl, ?_⟩
  simp only [YoloAnalyzer.calculate_quality_metrics]
  ring

/-- C6: `has_product` is true iff some detection's class name is in the
product vocabulary (exact string match), on both the service path and
the thumbnail path; it is false for an empty detection list. -/
theorem C6_has_product_iff (dets : List YoloService.DetectedObject)
    (adets : List YoloAnalyzer.Detection) (image : YoloService.Image)
    (frame_index : ℤ) (timestamp : ℚ) :
    ((YoloService.analyze_frame (YoloService.FrameSource.loaded image (Except.ok dets))
        frame_index timestamp).has_product = true ↔
      ∃ d ∈ dets, d.class_name ∈ YoloService.product_classes) ∧
    (YoloAnalyzer.hasProduct adets = true ↔
      ∃ d ∈ adets, d.class_name ∈ YoloAnalyzer.product_classes) ∧
    (YoloService.analyze_frame (YoloService.FrameSource.loaded image (Except.ok []))
        frame_index timestamp).has_product = false ∧
    YoloAnalyzer.hasProduct [] = false := by
  refine ⟨?_, ?_, rfl, rfl⟩ <;>
    simp [YoloService.analyze_frame, YoloAnalyzer.hasProduct, List.any_eq_true]

/-- C7 counterexample: the two product vocabularies are not equal as
sets of labels — "shoe" is in the service set but not the analyzer set. -/
theorem C7_counterexample :
    ¬ (∀ s : String, s ∈ YoloService.product_classes ↔ s ∈ YoloAnalyzer.product_classes) := by
  intro h
  have h2 := (h "shoe").mp (by decide)
  revert h2
  decide

/-- C7 amended: the service vocabulary is exactly the analyzer
vocabulary plus the extra label "shoe"; every other label agrees. -/
theorem C7_amended_vocabularies (s : String) :
    YoloService.product_classes = YoloAnalyzer.product_classes ++ ["shoe"] ∧
    "shoe" ∉ YoloAnalyzer.product_classes ∧
    (s ∈ YoloService.product_classes ↔ s ∈ YoloAnalyzer.product_classes ∨ s = "shoe") := by
  refine ⟨rfl, by decide, ?_⟩
  rw [show YoloService.product_classes = YoloAnalyzer.product_classes ++ ["shoe"] from rfl]
  simp

/-- C8 counterexample: a frame that decodes to nothing (`cv2.imread`
returns None) yields the degraded response with blur and brightness 0.0,
not the neutral 0.5 the claim states. -/
theorem C8_counterexample :
    (YoloService.analyze_frame YoloService.FrameSource.unreadable 0 0).blur_score ≠ 1/2 ∧
    (YoloService.analyze_frame YoloService.FrameSource.unreadable 0 0).brightness_score ≠ 1/2 := by
  constructor <;> · show (0 : ℚ) ≠ 1/2; norm_num

/-- C8 amended: a decode failure yields the degraded response (scores
0.0); the neutral default 0.5 is returned by the blur and brightness
helpers only when their internal pixel computation fails on an
already-decoded image. -/
theorem C8_amended_neutral_defaults (image : YoloService.Image) (frame_index : ℤ)
    (timestamp : ℚ) (h : image.metricsOk = false) :
    YoloService.analyze_frame YoloService.FrameSource.unreadable frame_index timestamp =
      YoloService.degradedResponse frame_index timestamp ∧
    YoloService.calculate_blur_score image = 1/2 ∧
    YoloService.calculate_brightness_score image = 1/2 := by
  refine ⟨rfl, ?_, ?_⟩ <;>
    simp [YoloService.calculate_blur_score, YoloService.calculate_brightness_score, h]

/-- Witness for the amended C8 at a concrete image whose metric
computation fails. -/
theorem C8_amended_neutral_defaults_witness :
    YoloService.analyze_frame YoloService.FrameSource.unreadable 0 0 =
      YoloService.degradedResponse 0 0 ∧
    YoloService.calculate_blur_score (YoloService.Image.mk false 0 0) = 1/2 ∧
    YoloService.calculate_brightness_score (YoloService.Image.mk false 0 0) = 1/2 :=
  C8_amended_neutral_defaults (YoloService.Image.mk false 0 0) 0 0 rfl

/-- C1: the batch surface is a per-request map of single-frame analysis,
so output length equals input length, each output position carries that
request's single-frame result (degraded exactly where that single frame
would degrade, untouched elsewhere), and the frame index at each
position is the input's frame index. -/
theorem C1_batch_positional (env : String → YoloService.FrameSource)
    (requests : List YoloService.FrameAnalysisRequest) (i : ℕ)
    (r : YoloService.FrameAnalysisRequest) (h : requests[i]? = some r) :
    (YoloService.analyze_batch env requests).length = requests.length ∧
    (YoloService.analyze_batch env requests)[i]? =
      some (YoloService.analyze_frame (env r.frame_path) r.frame_index r.timestamp) ∧
    (YoloService.analyze_frame (env r.frame_path) r.frame_index r.timestamp).frame_index =
      r.frame_index := by
  refine ⟨List.length_map _ _, ?_, analyze_frame_frame_index _ _ _⟩
  simp [YoloService.analyze_batch, List.getElem?_map, h]

/-- A one-request batch whose frame is missing, for the C1 witness. -/
def exampleEnv : String → YoloService.FrameSource := fun _ => YoloService.FrameSource.missing

/-- A concrete frame request, for the C1 witness. -/
def exampleRequest : YoloService.FrameAnalysisRequest :=
  { frame_path := "frames/frame0.jpg", frame_index := 3, timestamp := 1/2 }

/-- Witness for C1 on a concrete one-request batch. -/
theorem C1_batch_positional_witness :
    (YoloService.analyze_batch exampleEnv [exampleRequest]).length = [exampleRequest].length ∧
    (YoloService.analyze_batch exampleEnv [exampleRequest])[0]? =
      some (YoloService.analyze_frame (exampleEnv exampleRequest.frame_path)
        exampleRequest.frame_index exampleRequest.timestamp) ∧
    (YoloService.analyze_frame (exampleEnv exampleRequest.frame_path)
        exampleRequest.frame_index exampleRequest.timestamp).frame_index =
      exampleRequest.frame_index :=
  C1_batch_positional exampleEnv [exampleRequest] 0 exampleRequest rfl

/-- C9: a not-found frame produces a result distinct from every
successful analysis that merely has an empty detection list — the
degraded response's quality score is 0 while a successful empty analysis
scores at least 0.12. -/
theorem C9_notfound_distinct_from_empty (image : YoloService.Image)
    (frame_index : ℤ) (timestamp : ℚ) (h : 0 ≤ image.laplacianVar) :
    YoloService.analyze_frame YoloService.FrameSource.missing frame_index timestamp ≠
      YoloService.analyze_frame (YoloService.FrameSource.loaded image (Except.ok []))
        frame_index timestamp := by
  intro heq
  have hb := calculate_blur_score_bounds image h
  have hbr := calculate_brightness_score_bounds image
  have hq := congrArg YoloService.FrameAnalysisResponse.quality_score heq
  simp [YoloService.analyze_frame, YoloService.degradedResponse] at hq
  linarith [hb.1, hbr.1]

/-- Witness for C9 at a concrete image. -/
theorem C9_notfound_distinct_from_empty_witness :
    (0 : ℚ) ≤ (YoloService.Image.mk true 0 0).laplacianVar ∧
    YoloService.analyze_frame YoloService.FrameSource.missing 0 0 ≠
      YoloService.analyze_frame
        (YoloService.FrameSource.loaded (YoloService.Image.mk true 0 0) (Except.ok [])) 0 0 :=
  ⟨le_refl 0, C9_notfound_distinct_from_empty (YoloService.Image.mk true 0 0) 0 0 (le_refl 0)⟩

/-- C10: every successful (non-degraded) service analysis has a quality
score in [0.12, 1], while the degraded path scores exactly 0, so a
caller can tell a failed analysis from a legitimately low-scoring
frame. -/
theorem C10_quality_range (image : YoloService.Image)
    (dets : List YoloService.DetectedObject) (frame_index : ℤ) (timestamp : ℚ)
    (h : 0 ≤ image.laplacianVar) :
    12/100 ≤ (YoloService.analyze_frame (YoloService.FrameSource.loaded image (Except.ok dets))
        frame_index timestamp).quality_score ∧
    (YoloService.analyze_frame (YoloService.FrameSource.loaded image (Except.ok dets))
        frame_index timestamp).quality_score ≤ 1 ∧
    (YoloService.analyze_frame YoloService.FrameSource.missing frame_index
        timestamp).quality_score = 0 := by
  have hb := calculate_blur_score_bounds image h
  have hbr := calculate_brightness_score_bounds image
  have hd : (3/10 : ℚ) ≤
        (if dets.any (fun d => YoloService.product_classes.contains d.class_name) then (1 : ℚ)
          else 3/10) ∧
      (if dets.any (fun d => YoloService.product_classes.contains d.class_name) then (1 : ℚ)
          else 3/10) ≤ 1 := by
    split <;> norm_num
  refine ⟨?_, ?_, rfl⟩ <;>
  · simp only [YoloService.analyze_frame]
    linarith [hb.1, hb.2, hbr.1, hbr.2, hd.1, hd.2]

/-- Witness for C10 at a concrete image and empty detection list. -/
theorem C10_quality_range_witness :
    (0 : ℚ) ≤ (YoloService.Image.mk true 0 0).laplacianVar ∧
    12/100 ≤ (YoloService.analyze_frame
        (YoloService.FrameSource.loaded (YoloService.Image.mk true 0 0) (Except.ok [])) 0
        0).quality_score :=
  ⟨le_refl 0, (C10_quality_range (YoloService.Image.mk true 0 0) [] 0 0 (le_refl 0)).1⟩

/-! ## Composition scorer lemmas -/

/-- The loop body of the per-object score is the spec's steps 1-5
verbatim. -/
theorem objectScore_eq_spec (obj : YoloAnalyzer.Detection) :
    YoloAnalyzer.objectScore obj = YoloAnalyzer.specPerObjectScore obj := rfl

/-- A fold tracking two running maxima in a pair splits into two
independent max folds. -/
theorem foldl_max_pair (f g : YoloAnalyzer.Detection → ℝ) :
    ∀ (l : List YoloAnalyzer.Detection) (a b : ℝ),
      l.foldl (fun (p : ℝ × ℝ) o => (max p.1 (f o), max p.2 (g o))) (a, b) =
        (l.foldl (fun x o => max x (f o)) a, l.foldl (fun x o => max x (g o)) b)
  | [], _, _ => rfl
  | o :: l, a, b => by
      simp only [List.foldl_cons]
      exact foldl_max_pair f g l (max a (f o)) (max b (g o))

/-- A max fold started from `max a b` pulls `a` out in front. -/
theorem foldl_max_shift (f : YoloAnalyzer.Detection → ℝ) :
    ∀ (l : List YoloAnalyzer.Detection) (a b : ℝ),
      l.foldl (fun x o => max x (f o)) (max a b) =
        max a (l.foldl (fun x o => max x (f o)) b)
  | [], _, _ => rfl
  | o :: l, a, b => by
      simp only [List.foldl_cons, max_assoc]
      exact foldl_max_shift f l a (max b (f o))

/-- Capping at 1 after flooring at 0 equals flooring at 0 after capping
at 1. -/
theorem min_one_max_zero (x : ℝ) : min (max 0 x) 1 = max 0 (min x 1) := by
  rcases le_total x 0 with hx | hx
  · rw [max_eq_left hx, min_eq_left zero_le_one, min_eq_left (hx.trans zero_le_one),
      max_eq_left hx]
  · rw [max_eq_right hx, max_eq_right (le_min hx zero_le_one)]

/-- The floor at 0 commutes with the 1.2 confidence boost. -/
theorem max_zero_mul_boost (x : ℝ) : max 0 x * (12/10) = max 0 (x * (12/10)) := by
  rw [max_mul_of_nonneg _ _ (by norm_num : (0:ℝ) ≤ 12/10), zero_mul]

/-- The threshold test on the loop's from-zero running maximum agrees
with the test on the true maximum. -/
theorem max_zero_gt_threshold (mc : ℝ) : (max 0 mc > 8/10) ↔ (mc > 8/10) := by
  constructor
  · intro h
    rcases lt_max_iff.mp h with h' | h'
    · norm_num at h'
    · exact h'
  · intro h
    exact lt_max_iff.mpr (Or.inr h)

/-- The composition score of the code equals the spec's reference
definition on every detection list. -/
theorem composition_code_eq_spec (objs : List YoloAnalyzer.Detection) :
    YoloAnalyzer.calculate_composition_score objs = YoloAnalyzer.specCompositionScore objs := by
  cases objs with
  | nil => rfl
  | cons d rest =>
      simp only [YoloAnalyzer.calculate_composition_score, YoloAnalyzer.specCompositionScore,
        List.isEmpty_cons, Bool.false_eq_true, if_false, List.foldl_cons]
      have hsplit := foldl_max_pair YoloAnalyzer.objectScore (fun o => o.confidence) rest
        (max 0 (YoloAnalyzer.objectScore d)) (max 0 d.confidence)
      rw [hsplit, foldl_max_shift YoloAnalyzer.objectScore rest 0 (YoloAnalyzer.objectScore d),
        foldl_max_shift (fun o => o.confidence) rest 0 d.confidence]
      simp only [YoloAnalyzer.specMaxOver, objectScore_eq_spec]
      set m := rest.foldl (fun x o => max x (YoloAnalyzer.specPerObjectScore o))
        (YoloAnalyzer.specPerObjectScore d) with hm
      set mc := rest.foldl (fun x o => max x o.confidence) d.confidence with hmc
      by_cases hb : mc > 8/10
      · rw [if_pos ((max_zero_gt_threshold mc).mpr hb), if_pos hb, max_zero_mul_boost,
          min_one_max_zero]
      · rw [if_neg (fun hc => hb ((max_zero_gt_threshold mc).mp hc)), if_neg hb,
          min_one_max_zero]

/-- The single centered detection of the spec's worked example:
bbox x 0.4, y 0.4, width 0.2, height 0.2, confidence 1. -/
noncomputable def exampleDetection : YoloAnalyzer.Detection :=
  { class_name := "bottle", confidence := 1,
    bbox := { x := 2/5, y := 2/5, width := 1/5, height := 1/5 } }

/-- The worked example's per-object score: centered (distance 0, center
score 1), area 0.04 (size score 0.4), confidence 1, so 0.64. -/
theorem objectScore_example : YoloAnalyzer.objectScore exampleDetection = 16/25 := by
  simp only [YoloAnalyzer.objectScore, exampleDetection]
  have harg : ((2/5 + 1/5/2 : ℝ) - 1/2) ^ 2 + ((2/5 + 1/5/2 : ℝ) - 1/2) ^ 2 = 0 := by
    norm_num
  rw [harg, Real.sqrt_zero]
  norm_num

/-- C4: the code's composition score equals the spec's reference
definition on every detection list, an empty detection list scores
exactly 0.3, and the worked single centered detection (bbox 0.4/0.4/
0.2/0.2, confidence 1) scores exactly 0.768 after the 1.2 boost. -/
theorem C4_composition_refines_spec :
    (∀ objs : List YoloAnalyzer.Detection,
      YoloAnalyzer.calculate_composition_score objs = YoloAnalyzer.specCompositionScore objs) ∧
    YoloAnalyzer.calculate_composition_score [] = 3/10 ∧
    YoloAnalyzer.calculate_composition_score [exampleDetection] = 768/1000 := by
  refine ⟨composition_code_eq_spec, rfl, ?_⟩
  simp only [YoloAnalyzer.calculate_composition_score, List.isEmpty_cons, Bool.false_eq_true,
    if_false, List.foldl_cons, List.foldl_nil, objectScore_example]
  norm_num [exampleDetection]
